import Mathlib

/-!
Verification of the oculo-control EOG gaze classifier (`src/graph.py`,
class `classify`) against its natural-language specification.

Shallow embedding choices:
* Python floats are modelled as `ℚ` (exact arithmetic; every amplitude,
  threshold and correlation in the claims is a small decimal).
* The single Python object `classify` is modelled as the record
  `ClassifyState`, holding every attribute `__init__` creates that the
  classification methods read or write.
* The source stores the flags as the ints 0/1 and only ever tests `== 1`;
  they are modelled as `Bool` (1 ↦ true, 0 ↦ false).
* The source's status strings ("centre", "center", "up", ...) are kept as
  `String`; the spec's `DirectionLabel` enumeration is the abstraction
  `labelOf` (the spec standardizes both spellings of centre to `Center`).
* `template_match` mutates `self.vertical_signal_stack` with
  `self.s = self.s.append(x)`, which in Python rebinds the attribute to
  `None`; the stacks are therefore modelled as `Option (List ℚ)` and the
  method returns `Except String ...`, with `.error` marking a raised
  Python exception.
-/

/-- The spec's closed output enumeration (spec §3, DirectionLabel). -/
inductive DirectionLabel where
  | Center
  | Up
  | Down
  | Left
  | Right
  | Blink
deriving DecidableEq, Repr

open DirectionLabel

/-- Abstraction from the source's status strings to the spec's
`DirectionLabel`; both source spellings "centre" and "center" map to
`Center` (spec §9 standardizes them), as does any unknown string. -/
def labelOf (s : String) : DirectionLabel :=
  if s = "up" then Up
  else if s = "down" then Down
  else if s = "left" then Left
  else if s = "right" then Right
  else if s = "blink" then Blink
  else Center

/-- State of the `classify` object (`graph.py` lines 71–92): previous
amplitudes, the four direction flags, the status string, the iterator and
the two signal stacks.  The stacks are `Option (List ℚ)` because
`template_match` rebinds them to Python `None` (see `pyAppendAssign`).
The five templates are the int `0` in `__init__` and never reassigned
anywhere in the source, so they are not carried in the state. -/
structure ClassifyState where
  vertical_prev_amplitude : ℚ
  horizontal_prev_amplitude : ℚ
  left_flag : Bool
  right_flag : Bool
  up_flag : Bool
  down_flag : Bool
  status : String
  iterator : ℕ
  vertical_signal_stack : Option (List ℚ)
  horizontal_signal_stack : Option (List ℚ)
deriving DecidableEq, Repr

/-- `classify.__init__` (`graph.py` lines 71–92): zero previous
amplitudes, all flags 0, status "centre", iterator 0, empty stacks. -/
def classify_init : ClassifyState :=
  { vertical_prev_amplitude := 0
  , horizontal_prev_amplitude := 0
  , left_flag := false
  , right_flag := false
  , up_flag := false
  , down_flag := false
  , status := "centre"
  , iterator := 0
  , vertical_signal_stack := some []
  , horizontal_signal_stack := some [] }

/-! ### The threshold classifier (`classify.treshold`, `graph.py` 94–136)

The method hardcodes its thresholds on every call (lines 95–99):
`upper_thresh_vertical = 100`, `lower_thresh_vertical = 100`,
`upper_thresh_horizontal = 3`, `lower_thresh_horizontal = 2`,
`difference_tresh = 0.5`.  It computes the two deltas against the stored
previous amplitudes, unconditionally stores the current amplitudes as the
new previous ones (lines 106–109), then runs eight independent `if`
statements in source order (lines 112–135), each possibly rewriting a
flag and the status.  Each `if` is one definition below. -/

def upper_thresh_vertical : ℚ := 100
def lower_thresh_vertical : ℚ := 100
def upper_thresh_horizontal : ℚ := 3
def lower_thresh_horizontal : ℚ := 2
def difference_tresh : ℚ := 1/2

/-- Line 112–114: `vertical_amplitude > upper ∧ vertical_difference >
difference_tresh` sets the up flag and status "up". -/
def treshold_if1 (s : ClassifyState) (v vd : ℚ) : ClassifyState :=
  if v > upper_thresh_vertical ∧ vd > difference_tresh then
    { s with up_flag := true, status := "up" }
  else s

/-- Line 115–117: sets the down flag and status "down". -/
def treshold_if2 (s : ClassifyState) (v vd : ℚ) : ClassifyState :=
  if v < lower_thresh_vertical ∧ vd < -difference_tresh then
    { s with down_flag := true, status := "down" }
  else s

/-- Line 118–120: sets the right flag and status "right". -/
def treshold_if3 (s : ClassifyState) (h hd : ℚ) : ClassifyState :=
  if h > upper_thresh_horizontal ∧ hd > difference_tresh then
    { s with right_flag := true, status := "right" }
  else s

/-- Line 121–123: sets the left flag and status "left". -/
def treshold_if4 (s : ClassifyState) (h hd : ℚ) : ClassifyState :=
  if h < lower_thresh_horizontal ∧ hd < -difference_tresh then
    { s with left_flag := true, status := "left" }
  else s

/-- Line 124–126: clears the up flag, status "center". -/
def treshold_if5 (s : ClassifyState) (vd : ℚ) : ClassifyState :=
  if s.up_flag = true ∧ vd < -difference_tresh then
    { s with up_flag := false, status := "center" }
  else s

/-- Line 127–129: clears the down flag, status "center". -/
def treshold_if6 (s : ClassifyState) (vd : ℚ) : ClassifyState :=
  if s.down_flag = true ∧ vd > difference_tresh then
    { s with down_flag := false, status := "center" }
  else s

/-- Line 130–132: clears the right flag, status "center". -/
def treshold_if7 (s : ClassifyState) (hd : ℚ) : ClassifyState :=
  if s.right_flag = true ∧ hd < -difference_tresh then
    { s with right_flag := false, status := "center" }
  else s

/-- Line 133–135: clears the left flag, status "center". -/
def treshold_if8 (s : ClassifyState) (hd : ℚ) : ClassifyState :=
  if s.left_flag = true ∧ hd > difference_tresh then
    { s with left_flag := false, status := "center" }
  else s

/-- `classify.treshold(vertical_amplitude, horizontal_amplitude)`
(`graph.py` 94–136): deltas against the previous amplitudes, previous
amplitudes replaced unconditionally, then the eight `if`s in source
order.  The Python method returns `self.status`, i.e. the `.status`
field of the resulting state. -/
def treshold (s : ClassifyState) (vertical_amplitude horizontal_amplitude : ℚ) :
    ClassifyState :=
  let vertical_difference := vertical_amplitude - s.vertical_prev_amplitude
  let horizontal_difference := horizontal_amplitude - s.horizontal_prev_amplitude
  let s := { s with horizontal_prev_amplitude := horizontal_amplitude
                  , vertical_prev_amplitude := vertical_amplitude }
  let s := treshold_if1 s vertical_amplitude vertical_difference
  let s := treshold_if2 s vertical_amplitude vertical_difference
  let s := treshold_if3 s horizontal_amplitude horizontal_difference
  let s := treshold_if4 s horizontal_amplitude horizontal_difference
  let s := treshold_if5 s vertical_difference
  let s := treshold_if6 s vertical_difference
  let s := treshold_if7 s horizontal_difference
  let s := treshold_if8 s horizontal_difference
  s

/-- Feeding a sample sequence to `treshold`, collecting the returned
status strings (the value of `self.status` after each call). -/
def treshold_run (s : ClassifyState) : List (ℚ × ℚ) → List String
  | [] => []
  | (v, h) :: rest => (treshold s v h).status :: treshold_run (treshold s v h) rest

/-! ### The correlation classifier (`classify.template_match`, `graph.py` 142–169)

Lines 145–146 read `self.vertical_signal_stack =
self.vertical_signal_stack.append(vertical_amplitude)` (and the same for
the horizontal stack).  In Python `list.append` mutates the list and
returns `None`, so the assignment rebinds the attribute to `None` (the
grown list has no other reference and is lost); on a later call the
attribute holds `None` and `.append` raises `AttributeError`.  Lines
148–150 `pop(0)` from the stack when `self.iterator > template_size`
(`self.iterator` is initialised to 0 and never incremented anywhere in
the source).  Lines 152–156 call `scipy.stats.pearsonr(stack,
template)`; at this point the stack attribute always holds `None` and
each template is the int `0` from `__init__`, and `pearsonr` raises a
`TypeError` on either argument.  Raised exceptions are modelled as the
`.error` case of `Except`. -/

/-- Python `stack = stack.append(x)` (one of lines 145–146). -/
def pyAppendAssign (stack : Option (List ℚ)) (_x : ℚ) :
    Except String (Option (List ℚ)) :=
  match stack with
  | none => .error "AttributeError: NoneType object has no attribute append"
  | some _ => .ok none

/-- Python `stack.pop(0)` on an `Option (List ℚ)` attribute: raises on
`None`, raises on an empty list, otherwise removes the head (oldest
element). -/
def pyPopFront (stack : Option (List ℚ)) : Except String (Option (List ℚ)) :=
  match stack with
  | none => .error "AttributeError: NoneType object has no attribute pop"
  | some [] => .error "IndexError: pop from empty list"
  | some (_ :: rest) => .ok (some rest)

/-- The per-channel stack update a `template_match` call performs (lines
145–150): the append-and-rebind of line 145/146, then the conditional
`pop(0)` of lines 148–150. -/
def stack_push (stack : Option (List ℚ)) (iterator template_size : ℕ) (x : ℚ) :
    Except String (Option (List ℚ)) := do
  let stack ← pyAppendAssign stack x
  if iterator > template_size then pyPopFront stack else pure stack

/-- Repeated `stack_push` over a list of amplitudes.  As in the source,
`iterator` does not change between calls (`self.iterator` is never
incremented). -/
def stack_push_run (stack : Option (List ℚ)) (iterator template_size : ℕ) :
    List ℚ → Except String (Option (List ℚ))
  | [] => .ok stack
  | x :: rest => do
      let stack ← stack_push stack iterator template_size x
      stack_push_run stack iterator template_size rest

/-- `classify.template_match(vertical_amplitude, horizontal_amplitude,
template_size)` (`graph.py` 142–169).  After the two stack updates the
stack attributes hold `None`, so the first `scipy.stats.pearsonr` call
of line 152 raises a `TypeError` (its arguments are `None` and the int
`0` template); the returned state/status pair is never reached. -/
def template_match (s : ClassifyState)
    (vertical_amplitude horizontal_amplitude : ℚ) (template_size : ℕ) :
    Except String (ClassifyState × String) := do
  let vstack ← pyAppendAssign s.vertical_signal_stack vertical_amplitude
  let hstack ← pyAppendAssign s.horizontal_signal_stack horizontal_amplitude
  let _vstack ← if s.iterator > template_size then pyPopFront vstack else pure vstack
  let _hstack ← if s.iterator > template_size then pyPopFront hstack else pure hstack
  .error "TypeError: pearsonr argument is not a sequence"

/-- The status-update chain of `template_match` (lines 158–167), as a
function of the five correlation values `self.*_corr[0]` that it reads
and the status it starts from.  In the source these lines are
unreachable (the `pearsonr` calls above them raise, see
`template_match`); they are embedded separately to settle the spec's
description of the matching order.  Every comparison in the source is
strict: `if self.left_corr[0] > 0.9:` etc. -/
def corr_status_update (status : String)
    (left_corr right_corr up_corr down_corr blink_corr : ℚ) : String :=
  let status := if left_corr > 9/10 then "left" else status
  let status := if right_corr > 9/10 then "right" else status
  let status := if up_corr > 9/10 then "up" else status
  let status := if down_corr > 9/10 then "down" else status
  let status := if blink_corr > 9/10 then "blink" else status
  status

/-- Number of the four direction flags whose value differs between two
states (used to state the spec's "at most one flag transitions per
call" invariant). -/
def flag_changes (s t : ClassifyState) : ℕ :=
  (if s.up_flag ≠ t.up_flag then 1 else 0) +
  (if s.down_flag ≠ t.down_flag then 1 else 0) +
  (if s.left_flag ≠ t.left_flag then 1 else 0) +
  (if s.right_flag ≠ t.right_flag then 1 else 0)

/-- 1 when a flag went from cleared to set during a call, else 0. -/
def newly_set (old new : Bool) : ℕ :=
  if old = false ∧ new = true then 1 else 0

/-- 1 when a flag went from set to cleared during a call, else 0. -/
def newly_cleared (old new : Bool) : ℕ :=
  if old = true ∧ new = false then 1 else 0

/-! ### Helper lemmas: explicit record form of each `treshold` branch -/

theorem treshold_if1_eq (s : ClassifyState) (v vd : ℚ) :
    treshold_if1 s v vd =
      { s with
        up_flag := if v > upper_thresh_vertical ∧ vd > difference_tresh then true else s.up_flag
        status := if v > upper_thresh_vertical ∧ vd > difference_tresh then "up" else s.status } := by
  unfold treshold_if1; split_ifs <;> rfl

theorem treshold_if2_eq (s : ClassifyState) (v vd : ℚ) :
    treshold_if2 s v vd =
      { s with
        down_flag := if v < lower_thresh_vertical ∧ vd < -difference_tresh then true else s.down_flag
        status := if v < lower_thresh_vertical ∧ vd < -difference_tresh then "down" else s.status } := by
  unfold treshold_if2; split_ifs <;> rfl

theorem treshold_if3_eq (s : ClassifyState) (h hd : ℚ) :
    treshold_if3 s h hd =
      { s with
        right_flag := if h > upper_thresh_horizontal ∧ hd > difference_tresh then true else s.right_flag
        status := if h > upper_thresh_horizontal ∧ hd > difference_tresh then "right" else s.status } := by
  unfold treshold_if3; split_ifs <;> rfl

theorem treshold_if4_eq (s : ClassifyState) (h hd : ℚ) :
    treshold_if4 s h hd =
      { s with
        left_flag := if h < lower_thresh_horizontal ∧ hd < -difference_tresh then true else s.left_flag
        status := if h < lower_thresh_horizontal ∧ hd < -difference_tresh then "left" else s.status } := by
  unfold treshold_if4; split_ifs <;> rfl

theorem treshold_if5_eq (s : ClassifyState) (vd : ℚ) :
    treshold_if5 s vd =
      { s with
        up_flag := if s.up_flag = true ∧ vd < -difference_tresh then false else s.up_flag
        status := if s.up_flag = true ∧ vd < -difference_tresh then "center" else s.status } := by
  unfold treshold_if5; split_ifs <;> rfl

theorem treshold_if6_eq (s : ClassifyState) (vd : ℚ) :
    treshold_if6 s vd =
      { s with
        down_flag := if s.down_flag = true ∧ vd > difference_tresh then false else s.down_flag
        status := if s.down_flag = true ∧ vd > difference_tresh then "center" else s.status } := by
  unfold treshold_if6; split_ifs <;> rfl

theorem treshold_if7_eq (s : ClassifyState) (hd : ℚ) :
    treshold_if7 s hd =
      { s with
        right_flag := if s.right_flag = true ∧ hd < -difference_tresh then false else s.right_flag
        status := if s.right_flag = true ∧ hd < -difference_tresh then "center" else s.status } := by
  unfold treshold_if7; split_ifs <;> rfl

theorem treshold_if8_eq (s : ClassifyState) (hd : ℚ) :
    treshold_if8 s hd =
      { s with
        left_flag := if s.left_flag = true ∧ hd > difference_tresh then false else s.left_flag
        status := if s.left_flag = true ∧ hd > difference_tresh then "center" else s.status } := by
  unfold treshold_if8; split_ifs <;> rfl

/-- A `treshold` call only ever writes the statuses "up", "down",
"right", "left" or "center"; it cannot introduce "blink". -/
theorem treshold_status_ne_blink (s : ClassifyState) (v h : ℚ)
    (hs : s.status ≠ "blink") : (treshold s v h).status ≠ "blink" := by
  simp only [treshold, treshold_if1_eq, treshold_if2_eq, treshold_if3_eq, treshold_if4_eq,
    treshold_if5_eq, treshold_if6_eq, treshold_if7_eq, treshold_if8_eq]
  split_ifs <;> simp_all

/-- Only the source string "blink" abstracts to the `Blink` label. -/
theorem labelOf_ne_blink (st : String) (hs : st ≠ "blink") : labelOf st ≠ Blink := by
  unfold labelOf; split_ifs <;> simp_all

/-- Any `treshold` run started from a state whose status is not "blink"
never emits the `Blink` label. -/
theorem treshold_run_no_blink (l : List (ℚ × ℚ)) :
    ∀ s : ClassifyState, s.status ≠ "blink" →
      Blink ∉ (treshold_run s l).map labelOf := by
  induction l with
  | nil => intro s _; simp [treshold_run]
  | cons p rest ih =>
    intro s hs
    obtain ⟨v, h⟩ := p
    have hstep := treshold_status_ne_blink s v h hs
    simp only [treshold_run, List.map_cons, List.mem_cons, not_or]
    exact ⟨fun hc => labelOf_ne_blink _ hstep hc.symm, ih _ hstep⟩

/-- A newly set up flag requires a vertical delta above the threshold. -/
theorem treshold_up_newly_set (s : ClassifyState) (v h : ℚ)
    (h0 : s.up_flag = false) (h1 : (treshold s v h).up_flag = true) :
    v - s.vertical_prev_amplitude > difference_tresh := by
  simp only [treshold, treshold_if1_eq, treshold_if2_eq, treshold_if3_eq, treshold_if4_eq,
    treshold_if5_eq, treshold_if6_eq, treshold_if7_eq, treshold_if8_eq] at h1
  split_ifs at h1 <;> simp_all

/-- A newly cleared up flag requires a vertical delta below the negated
threshold. -/
theorem treshold_up_newly_cleared (s : ClassifyState) (v h : ℚ)
    (h0 : s.up_flag = true) (h1 : (treshold s v h).up_flag = false) :
    v - s.vertical_prev_amplitude < -difference_tresh := by
  simp only [treshold, treshold_if1_eq, treshold_if2_eq, treshold_if3_eq, treshold_if4_eq,
    treshold_if5_eq, treshold_if6_eq, treshold_if7_eq, treshold_if8_eq] at h1
  split_ifs at h1 <;> simp_all

/-- A newly set down flag requires a vertical delta below the negated
threshold. -/
theorem treshold_down_newly_set (s : ClassifyState) (v h : ℚ)
    (h0 : s.down_flag = false) (h1 : (treshold s v h).down_flag = true) :
    v - s.vertical_prev_amplitude < -difference_tresh := by
  simp only [treshold, treshold_if1_eq, treshold_if2_eq, treshold_if3_eq, treshold_if4_eq,
    treshold_if5_eq, treshold_if6_eq, treshold_if7_eq, treshold_if8_eq] at h1
  split_ifs at h1 <;> simp_all

/-- A newly cleared down flag requires a vertical delta above the
threshold. -/
theorem treshold_down_newly_cleared (s : ClassifyState) (v h : ℚ)
    (h0 : s.down_flag = true) (h1 : (treshold s v h).down_flag = false) :
    v - s.vertical_prev_amplitude > difference_tresh := by
  simp only [treshold, treshold_if1_eq, treshold_if2_eq, treshold_if3_eq, treshold_if4_eq,
    treshold_if5_eq, treshold_if6_eq, treshold_if7_eq, treshold_if8_eq] at h1
  split_ifs at h1 <;> simp_all

/-- A newly set right flag requires a horizontal delta above the
threshold. -/
theorem treshold_right_newly_set (s : ClassifyState) (v h : ℚ)
    (h0 : s.right_flag = false) (h1 : (treshold s v h).right_flag = true) :
    h - s.horizontal_prev_amplitude > difference_tresh := by
  simp only [treshold, treshold_if1_eq, treshold_if2_eq, treshold_if3_eq, treshold_if4_eq,
    treshold_if5_eq, treshold_if6_eq, treshold_if7_eq, treshold_if8_eq] at h1
  split_ifs at h1 <;> simp_all

/-- A newly cleared right flag requires a horizontal delta below the
negated threshold. -/
theorem treshold_right_newly_cleared (s : ClassifyState) (v h : ℚ)
    (h0 : s.right_flag = true) (h1 : (treshold s v h).right_flag = false) :
    h - s.horizontal_prev_amplitude < -difference_tresh := by
  simp only [treshold, treshold_if1_eq, treshold_if2_eq, treshold_if3_eq, treshold_if4_eq,
    treshold_if5_eq, treshold_if6_eq, treshold_if7_eq, treshold_if8_eq] at h1
  split_ifs at h1 <;> simp_all

/-- A newly set left flag requires a horizontal delta below the negated
threshold. -/
theorem treshold_left_newly_set (s : ClassifyState) (v h : ℚ)
    (h0 : s.left_flag = false) (h1 : (treshold s v h).left_flag = true) :
    h - s.horizontal_prev_amplitude < -difference_tresh := by
  simp only [treshold, treshold_if1_eq, treshold_if2_eq, treshold_if3_eq, treshold_if4_eq,
    treshold_if5_eq, treshold_if6_eq, treshold_if7_eq, treshold_if8_eq] at h1
  split_ifs at h1 <;> simp_all

/-- A newly cleared left flag requires a horizontal delta above the
threshold. -/
theorem treshold_left_newly_cleared (s : ClassifyState) (v h : ℚ)
    (h0 : s.left_flag = true) (h1 : (treshold s v h).left_flag = false) :
    h - s.horizontal_prev_amplitude > difference_tresh := by
  simp only [treshold, treshold_if1_eq, treshold_if2_eq, treshold_if3_eq, treshold_if4_eq,
    treshold_if5_eq, treshold_if6_eq, treshold_if7_eq, treshold_if8_eq] at h1
  split_ifs at h1 <;> simp_all

/-! ### Claim theorems -/

/-- C1 (counterexample): with the source thresholds, the vertical
amplitude sequence [0, 50, 101, 101.6] at constant horizontal amplitude
0 does NOT produce the label sequence [Center, Center, Center, Up]
claimed by the spec: the third call already returns Up. -/
theorem treshold_expected_labels_counterexample :
    (treshold_run classify_init [(0, 0), (50, 0), (101, 0), (508/5, 0)]).map labelOf
      ≠ [Center, Center, Center, Up] := by
  with_unfolding_all decide

/-- C1 (amended): the same sequence produces [Center, Center, Up, Up] —
at the third sample 101 exceeds the upper vertical threshold 100 and the
delta 101 − 50 = 51 exceeds the difference threshold 0.5, so Up already
fires there. -/
theorem treshold_actual_labels :
    (treshold_run classify_init [(0, 0), (50, 0), (101, 0), (508/5, 0)]).map labelOf
      = [Center, Center, Up, Up] := by
  with_unfolding_all decide

/-- C2: `template_match` never returns normally: on every call, from
every state, it raises a Python exception (the stack attributes are
rebound to None by the `stack = stack.append(x)` assignments, after
which `pearsonr` — or `.append` itself on a later call — raises), so
the correlation classifier is not total as the spec claims. -/
theorem template_match_never_returns (s : ClassifyState) (v h : ℚ) (n : ℕ) :
    (template_match s v h n).isOk = false := by
  obtain ⟨vp, hp, lf, rf, uf, df, st, it, vs, hs⟩ := s
  rcases vs with _ | l <;> rcases hs with _ | m <;>
    simp [template_match, pyAppendAssign, pyPopFront, Except.isOk, Except.toBool,
      bind, Except.bind, pure, Except.pure] <;>
    split_ifs <;> rfl

/-- C3: called before the windows are full — here from the freshly
constructed state, whose stacks are empty — `template_match` raises a
TypeError instead of returning the Center label the claim describes. -/
theorem template_match_warmup_raises (v h : ℚ) (n : ℕ) :
    template_match classify_init v h n =
      .error "TypeError: pearsonr argument is not a sequence" := by
  simp [template_match, classify_init, pyAppendAssign, bind, Except.bind, pure, Except.pure]

/-- C7: with both windows holding `n` copies of the same amplitude `c`
(a zero-variance window, e.g. at full capacity), `template_match` still
raises a TypeError rather than treating the correlation as 0 and
returning Center. -/
theorem template_match_constant_window_raises (n : ℕ) (c v h : ℚ) (m : ℕ) :
    template_match
      { classify_init with
        vertical_signal_stack := some (List.replicate n c)
        horizontal_signal_stack := some (List.replicate n c) } v h m =
      .error "TypeError: pearsonr argument is not a sequence" := by
  simp [template_match, classify_init, pyAppendAssign, bind, Except.bind, pure, Except.pure]

/-- C4: pushing [1, 2, 3, 4] through the source's per-channel stack
update with capacity (template_size) 3 does not leave the window
[2, 3, 4]: the first push rebinds the stack to None, and the second
raises AttributeError. -/
theorem signal_stack_fifo_fails :
    stack_push_run (some []) 0 3 [1, 2, 3, 4] =
      .error "AttributeError: NoneType object has no attribute append" := by
  rfl

/-- C5 (counterexample): a correlation of exactly 0.9 — here the up
correlation, all others 0 — does not match: the status-update chain of
lines 158–167 uses a strict comparison, so the status stays "centre"
(label Center), not Up as the claim's `≥ match_threshold` reading says. -/
theorem corr_match_at_exact_threshold_counterexample :
    corr_status_update "centre" 0 0 (9/10) 0 0 = "centre" ∧
    labelOf (corr_status_update "centre" 0 0 (9/10) 0 0) ≠ Up := by
  with_unfolding_all decide

/-- C5 (amended): the status-update chain of `template_match` evaluates
the gestures in the fixed order left, right, up, down, blink,
overwriting the status on each gesture whose correlation is STRICTLY
greater than 0.9, so the last strict match in that order wins; if no
correlation exceeds 0.9 — including one exactly equal to 0.9 — the
incoming status is returned unchanged. -/
theorem corr_status_update_order (st : String) (l r u d b : ℚ) :
    (b > 9/10 → corr_status_update st l r u d b = "blink") ∧
    (¬ b > 9/10 → d > 9/10 → corr_status_update st l r u d b = "down") ∧
    (¬ b > 9/10 → ¬ d > 9/10 → u > 9/10 → corr_status_update st l r u d b = "up") ∧
    (¬ b > 9/10 → ¬ d > 9/10 → ¬ u > 9/10 → r > 9/10 →
      corr_status_update st l r u d b = "right") ∧
    (¬ b > 9/10 → ¬ d > 9/10 → ¬ u > 9/10 → ¬ r > 9/10 → l > 9/10 →
      corr_status_update st l r u d b = "left") ∧
    (¬ b > 9/10 → ¬ d > 9/10 → ¬ u > 9/10 → ¬ r > 9/10 → ¬ l > 9/10 →
      corr_status_update st l r u d b = st) := by
  unfold corr_status_update
  refine ⟨?_, ?_, ?_, ?_, ?_, ?_⟩ <;> intros <;> split_ifs <;> simp_all

/-- C5 witness: a blink correlation of 1 makes the chain return
"blink". -/
theorem corr_status_update_order_witness :
    corr_status_update "centre" 0 0 0 0 1 = "blink" :=
  (corr_status_update_order "centre" 0 0 0 0 1).1 (by norm_num)

/-- C6 (counterexample): from the reachable state after the sample
(-10, 0) — which sets the down flag — the call (101, 0) changes two of
the four flags at once (up is set and down is cleared), refuting the
claim that at most one flag transitions per call. -/
theorem treshold_two_flag_changes_counterexample :
    1 < flag_changes (treshold classify_init (-10) 0)
        (treshold (treshold classify_init (-10) 0) 101 0) := by
  with_unfolding_all decide

/-- C6 (amended): per classify call, on each axis at most one flag is
newly set and at most one newly cleared; a set and a clear of opposite
flags can coincide (see the counterexample), so up to two flags per
axis — not one overall — can change in a single call. -/
theorem treshold_flag_changes_per_axis (s : ClassifyState) (v h : ℚ) :
    newly_set s.up_flag (treshold s v h).up_flag +
      newly_set s.down_flag (treshold s v h).down_flag ≤ 1 ∧
    newly_cleared s.up_flag (treshold s v h).up_flag +
      newly_cleared s.down_flag (treshold s v h).down_flag ≤ 1 ∧
    newly_set s.right_flag (treshold s v h).right_flag +
      newly_set s.left_flag (treshold s v h).left_flag ≤ 1 ∧
    newly_cleared s.right_flag (treshold s v h).right_flag +
      newly_cleared s.left_flag (treshold s v h).left_flag ≤ 1 := by
  have hdt : (0 : ℚ) < difference_tresh := by norm_num [difference_tresh]
  refine ⟨?_, ?_, ?_, ?_⟩
  · unfold newly_set
    split_ifs with hA hB <;> try norm_num
    have d1 := treshold_up_newly_set s v h hA.1 hA.2
    have d2 := treshold_down_newly_set s v h hB.1 hB.2
    linarith
  · unfold newly_cleared
    split_ifs with hA hB <;> try norm_num
    have d1 := treshold_up_newly_cleared s v h hA.1 hA.2
    have d2 := treshold_down_newly_cleared s v h hB.1 hB.2
    linarith
  · unfold newly_set
    split_ifs with hA hB <;> try norm_num
    have d1 := treshold_right_newly_set s v h hA.1 hA.2
    have d2 := treshold_left_newly_set s v h hB.1 hB.2
    linarith
  · unfold newly_cleared
    split_ifs with hA hB <;> try norm_num
    have d1 := treshold_right_newly_cleared s v h hA.1 hA.2
    have d2 := treshold_left_newly_cleared s v h hB.1 hB.2
    linarith

/-- C8: every `treshold` call stores the current amplitudes as the new
previous amplitudes, unconditionally — whatever branches fire. -/
theorem treshold_always_updates_prev (s : ClassifyState) (v h : ℚ) :
    (treshold s v h).vertical_prev_amplitude = v ∧
    (treshold s v h).horizontal_prev_amplitude = h := by
  simp only [treshold, treshold_if1_eq, treshold_if2_eq, treshold_if3_eq, treshold_if4_eq,
    treshold_if5_eq, treshold_if6_eq, treshold_if7_eq, treshold_if8_eq]
  exact ⟨trivial, trivial⟩

/-- C9: no sample sequence makes the threshold classifier return the
Blink label. -/
theorem treshold_never_blink (l : List (ℚ × ℚ)) :
    Blink ∉ (treshold_run classify_init l).map labelOf :=
  treshold_run_no_blink l classify_init (by decide)

/-- C10: a flag whose set condition fires in a classify call is still
set at the end of that call — the clear condition for the same flag
needs the opposite delta sign, so with the positive difference
threshold 0.5 it cannot fire in the same call. -/
theorem treshold_set_flag_survives_call (s : ClassifyState) (v h : ℚ) :
    (v > upper_thresh_vertical ∧ v - s.vertical_prev_amplitude > difference_tresh →
      (treshold s v h).up_flag = true) ∧
    (v < lower_thresh_vertical ∧ v - s.vertical_prev_amplitude < -difference_tresh →
      (treshold s v h).down_flag = true) ∧
    (h > upper_thresh_horizontal ∧ h - s.horizontal_prev_amplitude > difference_tresh →
      (treshold s v h).right_flag = true) ∧
    (h < lower_thresh_horizontal ∧ h - s.horizontal_prev_amplitude < -difference_tresh →
      (treshold s v h).left_flag = true) := by
  have hdt : (0 : ℚ) < difference_tresh := by norm_num [difference_tresh]
  simp only [treshold, treshold_if1_eq, treshold_if2_eq, treshold_if3_eq, treshold_if4_eq,
    treshold_if5_eq, treshold_if6_eq, treshold_if7_eq, treshold_if8_eq]
  refine ⟨fun hc => ?_, fun hc => ?_, fun hc => ?_, fun hc => ?_⟩ <;>
    split_ifs <;> simp_all <;> linarith

/-- C10 witness: from the fresh state, the sample (101, 0) fires the up
set condition and the up flag is set after the call. -/
theorem treshold_set_flag_survives_call_witness :
    (treshold classify_init 101 0).up_flag = true :=
  (treshold_set_flag_survives_call classify_init 101 0).1
    (by with_unfolding_all decide)
